import Mathlib

/-!
Shallow embedding of the oda-web-scraper core (extractor, paginator, worker,
orchestrator result-processing pass), translated from the TypeScript sources,
together with theorems settling the specification claims.
-/

namespace Oda

/-- `charsHavePre pat s` : is `pat` a leading segment of `s`? -/
def charsHavePre : List Char → List Char → Bool
  | [], _ => true
  | _ :: _, [] => false
  | p :: ps, c :: cs => p == c && charsHavePre ps cs

/-- `charsContain pat s` : does `pat` occur contiguously anywhere in `s`? -/
def charsContain (pat : List Char) : List Char → Bool
  | [] => pat.isEmpty
  | c :: rest => charsHavePre pat (c :: rest) || charsContain pat rest

/-- JavaScript `String.prototype.includes`: substring containment. -/
def containsSubstr (s pat : String) : Bool :=
  charsContain pat.toList s.toList

/-- JavaScript `String.prototype.toLowerCase`, character-wise (ASCII). -/
def jsToLower (s : String) : String :=
  String.mk (s.toList.map Char.toLower)

/-- JavaScript `String.prototype.trim`: strip whitespace from both ends. -/
def jsTrim (s : String) : String :=
  String.mk (((s.toList.dropWhile Char.isWhitespace).reverse.dropWhile
    Char.isWhitespace).reverse)

/-- `normalizeUrl` from `src/utils.ts`: keep an absolute URL
(`href.startsWith('http')`), otherwise prepend the base origin. -/
def normalizeUrl (href : String) (baseUrl : String := "https://oda.com") : String :=
  if charsHavePre "http".toList href.toList then href else baseUrl ++ href

/-- `SubcategoryLink` from `src/types.ts`. -/
structure SubcategoryLink where
  text : String
  href : String
deriving Repr, DecidableEq

/-- `filterExcludedLinks` from `src/utils.ts`:
`links.filter(link => !excludedTexts.some(t => link.text.includes(t)))`.
Note the source matches case-sensitively. -/
def filterExcludedLinks (links : List SubcategoryLink)
    (excludedTexts : List String := ["Alle"]) : List SubcategoryLink :=
  links.filter fun link =>
    !(excludedTexts.any fun excludedText => containsSubstr link.text excludedText)

/-- The spec's wording of the filter ("case-insensitive substring match"),
written for comparison with the source's `filterExcludedLinks`. -/
def filterExcludedLinksSpec (links : List SubcategoryLink)
    (excludedTexts : List String := ["Alle"]) : List SubcategoryLink :=
  links.filter fun link =>
    !(excludedTexts.any fun excludedText =>
      containsSubstr (jsToLower link.text) (jsToLower excludedText))

/-- `ProductData` from `src/types.ts` / `src/core/types.ts`.  The `category`
field is typed `string` in TS but `src/scraper.ts` never assigns it (the
record is pushed without it, i.e. it is `undefined`), so it is embedded as
`Option String`. -/
structure ProductData where
  name : String
  price : Option String
  brand : Option String
  link : Option String
  image : Option String
  description : Option String
  pricePerKilo : Option String
  discount : Option String
  category : Option String
deriving Repr, DecidableEq

/-- One product tile as seen by `extractProductData` in `src/scraper.ts`:
the paragraph inner texts, the span inner texts, and the outcomes of the two
attribute reads `tile.locator('a').first().getAttribute('href')` and
`tile.locator('img').first().getAttribute('src')`.  An attribute read is
`Except.error` when the browser call throws (e.g. no matching element), and
`Except.ok` with the attribute value otherwise (`none` = JS `null`). -/
structure Tile where
  paragraphs : List String
  spans : List String
  linkAttr : Except String (Option String)
  imageAttr : Except String (Option String)
deriving Repr

/-- Per-tile body of `extractProductData` (`src/scraper.ts` lines 48-77).
`none` means the tile produced nothing: a thrown-and-caught per-tile error
(failed attribute read, or `allSpans` empty so that
`pricePerKiloOrDiscount.includes('kr')` throws on `undefined`), or a falsy
title (`undefined` or the empty string). -/
def extractProductFromTile (t : Tile) : Option ProductData :=
  match t.linkAttr, t.imageAttr with
  | Except.ok productLink, Except.ok image =>
    match t.paragraphs.head? with
    | some title =>
      if title = "" then none
      else
        match t.spans.head? with
        | some pricePerKiloOrDiscount =>
          some {
            name := title
            price := t.paragraphs.get? 2
            brand := t.paragraphs.get? 1
            link := match productLink with
                    | some l => if l = "" then none else some (normalizeUrl l)
                    | none => none
            image := match image with
                     | some im => if im = "" then none else some im
                     | none => none
            description := t.paragraphs.get? 1
            pricePerKilo := if containsSubstr pricePerKiloOrDiscount "kr"
                            then some pricePerKiloOrDiscount else none
            discount := if containsSubstr pricePerKiloOrDiscount "kr"
                        then none else some pricePerKiloOrDiscount
            category := none }
        | none => none
    | none => none
  | _, _ => none

/-- `extractProductData` from `src/scraper.ts`: iterate over the tiles,
pushing one record per tile whose body succeeds; per-tile errors are caught
and skipped. -/
def extractProductData (tiles : List Tile) : List ProductData :=
  tiles.filterMap extractProductFromTile

/-- The page-navigator capability as the paginator sees it, over a page-state
type `σ`: `goto url` is the state after navigation plus the settle wait;
`extractTiles` reads the product tiles currently in the DOM; `loadMore`
is the observable outcome of `loadMoreProducts` (`src/scraper.ts` lines
86-110): `false` when the control is not visible or the click threw (the
catch returns `false`), `true` with the post-click state otherwise. -/
structure NavigatorModel (σ : Type) where
  goto : String → σ
  extractTiles : σ → List Tile
  loadMore : σ → Bool × σ

/-- `loadMoreProducts` from `src/scraper.ts`, collapsed onto the navigator
model: visibility check, click and settle wait, with every failure caught
and turned into `false`. -/
def loadMoreProducts {σ : Type} (nav : NavigatorModel σ) (s : σ) : Bool × σ :=
  nav.loadMore s

/-- The `while (currentPage <= maxPages)` loop of `scrapeAllProductsFromPage`
(`src/scraper.ts` lines 126-144), with `fuel = maxPages - currentPage + 1`
(the number of remaining admissible pages, current one included).  Each
cycle extracts the products on the page; when `loadMoreProducts` reports
`false` the loop breaks, otherwise the page counter advances.  The result is
the list of per-page extraction batches. -/
def scrapeLoop {σ : Type} (nav : NavigatorModel σ) : Nat → σ → List (List ProductData)
  | 0, _ => []
  | fuel + 1, s =>
    let products := extractProductData (nav.extractTiles s)
    let hasMore := loadMoreProducts nav s
    if hasMore.1 then products :: scrapeLoop nav fuel hasMore.2
    else [products]

/-- The per-page batches produced by `scrapeAllProductsFromPage` for a given
`maxPages` bound, starting from the state after `goto url` and the settle
wait. -/
def scrapeAllPages {σ : Type} (nav : NavigatorModel σ) (url : String)
    (maxPages : Nat) : List (List ProductData) :=
  scrapeLoop nav maxPages (nav.goto url)

/-- `scrapeAllProductsFromPage` from `src/scraper.ts`: all batches
concatenated into the accumulated `allProducts` list. -/
def scrapeAllProductsFromPage {σ : Type} (nav : NavigatorModel σ) (url : String)
    (maxPages : Nat := 10) : List ProductData :=
  (scrapeAllPages nav url maxPages).flatten

/-- `pat` consumed from the front of `cs`: `some rest` when `cs = pat ++ rest`. -/
def chompLit : List Char → List Char → Option (List Char)
  | [], cs => some cs
  | _ :: _, [] => none
  | p :: ps, c :: cs => if p = c then chompLit ps cs else none

/-- One attempt of the regex `\/categories\/\d+-([^\/]+)\//` at the current
position: literal `/categories/`, one or more digits, `-`, then the capture
(one or more non-slash characters, ended by a mandatory `/`). -/
def matchSlugAt (cs : List Char) : Option (List Char) :=
  match chompLit "/categories/".toList cs with
  | none => none
  | some rest =>
    let ds := rest.takeWhile Char.isDigit
    if ds.isEmpty then none
    else
      match rest.drop ds.length with
      | '-' :: rest2 =>
        let slug := rest2.takeWhile (fun c => !(c == '/'))
        if slug.isEmpty then none
        else if (rest2.drop slug.length).head? = some '/' then some slug
        else none
      | _ => none

/-- `url.match(/\/categories\/\d+-([^\/]+)\//)`: the capture of the first
position where the pattern matches. -/
def findCategorySlug : List Char → Option (List Char)
  | [] => none
  | c :: cs =>
    match matchSlugAt (c :: cs) with
    | some slug => some slug
    | none => findCategorySlug cs

/-- The regex word class `\w` (`[A-Za-z0-9_]`, ASCII). -/
def jsWordChar (c : Char) : Bool :=
  c.isAlphanum || c == '_'

/-- `replace(/\b\w/g, l => l.toUpperCase())`: uppercase every word character
that starts a word (preceded by nothing or by a non-word character). -/
def titleCaseChars : Option Char → List Char → List Char
  | _, [] => []
  | prev, c :: cs =>
    let boundary := match prev with
      | none => true
      | some p => !jsWordChar p
    (if boundary && jsWordChar c then c.toUpper else c) :: titleCaseChars (some c) cs

/-- `extractCategoryNameFromUrl` from `src/core/worker.ts` (also repeated in
`src/index.ts`): capture the slug after `/categories/<digits>-`, replace `-`
by spaces and title-case word starts; `"Unknown Category"` when the pattern
does not match. -/
def extractCategoryNameFromUrl (url : String) : String :=
  match findCategorySlug url.toList with
  | some slug =>
    String.mk (titleCaseChars none (slug.map fun c => if c = '-' then ' ' else c))
  | none => "Unknown Category"

/-- `cleanSubcategoryName` from `src/core/worker.ts`:
`name.replace(/[0-9]/g, '').trim()` — every ASCII digit is removed, anywhere
in the string, and the result is trimmed. -/
def cleanSubcategoryName (name : String) : String :=
  jsTrim (String.mk (name.toList.filter fun c => !c.isDigit))

/-- Modelled from the spec: `src/core/scraper.ts` is not among the sources
(only its caller `src/core/worker.ts` is), and the worker invokes its
`scrapeAllProductsFromPage` with a fourth argument, the cleaned subcategory
name.  Per the spec ("label every resulting record with the subcategory's
cleaned display name"), it is the `src/scraper.ts` paginator with each
resulting record's `category` field set to that name. -/
def coreScrapeAllProductsFromPage {σ : Type} (nav : NavigatorModel σ)
    (url : String) (maxPages : Nat) (categoryName : String) : List ProductData :=
  (scrapeAllProductsFromPage nav url maxPages).map
    fun p => { p with category := some categoryName }

/-- One entry of the worker's `subcategories` accumulator
(`src/core/worker.ts` lines 64-98). -/
structure SubcatResult where
  name : String
  url : String
  products : List ProductData
deriving Repr, DecidableEq

/-- The worker's per-subcategory loop (`src/core/worker.ts` lines 66-98):
for each link, compute the cleaned name, run the paginated scrape — whose
outcome, success or thrown error, is supplied by the `scrape` oracle — and
push one entry; on a thrown error the catch pushes the entry with an empty
product list and the loop continues. -/
def processSubcategories (scrape : SubcategoryLink → Except String (List ProductData)) :
    List SubcategoryLink → List SubcatResult
  | [] => []
  | link :: rest =>
    let cleanName := cleanSubcategoryName link.text
    let entry := match scrape link with
      | Except.ok products => SubcatResult.mk cleanName link.href products
      | Except.error _ => SubcatResult.mk cleanName link.href []
    entry :: processSubcategories scrape rest

/-- `categoryInfo` as returned by `scrapeUrl` and carried in the worker's
message (`src/core/worker.ts` line 113, `src/index.ts` `WorkerResult`). -/
structure CategoryInfo where
  name : String
  subcategories : List SubcatResult
deriving Repr, DecidableEq

/-- Outcomes of the worker's browser-facing steps, supplied as inputs:
the browser launch, the top-level `goto`+wait, the subcategory-link
extraction, and the per-link paginated scrape.  `Except.error` is a thrown
error carrying its message. -/
structure WorkerEnv where
  launchResult : Except String Unit
  gotoResult : Except String Unit
  linksResult : Except String (List SubcategoryLink)
  scrape : SubcategoryLink → Except String (List ProductData)

/-- Observable browser-manager activity of one worker run. -/
inductive BrowserEvent
  | launched
  | closeInvoked
  | released
deriving Repr, DecidableEq

/-- `BrowserManager.close` (`src/browser.ts` lines 22-28): always invocable;
it releases the underlying browser only when one is held. -/
def browserClose (held : Bool) : List BrowserEvent :=
  if held then [BrowserEvent.closeInvoked, BrowserEvent.released]
  else [BrowserEvent.closeInvoked]

/-- Result of one `scrapeUrl` run: the returned value or thrown error, the
browser-manager activity trace, and whether a browser is still held when the
function returns. -/
structure ScrapeRun where
  result : Except String CategoryInfo
  trace : List BrowserEvent
  heldAtEnd : Bool

/-- `scrapeUrl` from `src/core/worker.ts` (lines 36-123): launch the browser,
navigate, extract and filter subcategory links, process each subcategory,
close the browser and return; any error thrown inside the `try` is caught,
the browser is closed, and the error is rethrown. -/
def runScrapeUrl (env : WorkerEnv) (url : String) : ScrapeRun :=
  let categoryName := extractCategoryNameFromUrl url
  match env.launchResult with
  | Except.error e =>
    -- launch threw before a browser was held; the catch still calls close()
    ScrapeRun.mk (Except.error e) (browserClose false) false
  | Except.ok _ =>
    match env.gotoResult with
    | Except.error e =>
      ScrapeRun.mk (Except.error e) (BrowserEvent.launched :: browserClose true) false
    | Except.ok _ =>
      match env.linksResult with
      | Except.error e =>
        ScrapeRun.mk (Except.error e) (BrowserEvent.launched :: browserClose true) false
      | Except.ok allLinks =>
        let subcategoryLinks := filterExcludedLinks allLinks ["Alle"]
        let subcategories := processSubcategories env.scrape subcategoryLinks
        ScrapeRun.mk (Except.ok (CategoryInfo.mk categoryName subcategories))
          (BrowserEvent.launched :: browserClose true) false

/-- The worker's message to the parent (`src/core/worker.ts` lines 126-144). -/
structure WorkerResult where
  success : Bool
  url : String
  urlIndex : Nat
  categoryInfo : Option CategoryInfo
  error : Option String
deriving Repr, DecidableEq

/-- The worker harness (`src/core/worker.ts` lines 126-144): a resolved
`scrapeUrl` posts `success: true` with the category info, a rejected one is
caught and posts `success: false` with the error's message. -/
def runWorker (env : WorkerEnv) (url : String) (urlIndex : Nat) : WorkerResult :=
  match (runScrapeUrl env url).result with
  | Except.ok categoryInfo => WorkerResult.mk true url urlIndex (some categoryInfo) none
  | Except.error e => WorkerResult.mk false url urlIndex none (some e)

/-- The lifecycle events emitted through the connector
(`src/connector.ts`): emission appends the event synchronously. -/
inductive Event
  | categoryStarted (url : String) (urlIndex : Nat) (categoryName : String)
  | subcategoryStarted (url : String) (urlIndex : Nat) (categoryId : String)
      (subcategoryName : String) (subcategoryUrl : String)
  | subcategoryFinished (url : String) (urlIndex : Nat) (categoryId : String)
      (subcategoryId : String) (subcategoryName : String)
      (products : List ProductData) (success : Bool) (error : Option String)
  | categoryFinished (url : String) (urlIndex : Nat) (categoryId : String)
      (totalProducts : Nat) (totalSubcategories : Nat) (success : Bool)
      (error : Option String)
  | allFinished (totalUrls : Nat) (successfulUrls : Nat) (totalProducts : Nat)
deriving Repr, DecidableEq

/-- One element of `Promise.allSettled(workerPromises)` in `src/index.ts`:
the worker's posted message, or the rejection reason when the worker thread
errored or exited non-zero before posting. -/
inductive Outcome
  | fulfilled (r : WorkerResult)
  | rejected (reason : String)
deriving Repr, DecidableEq

/-- The `databaseService` operations the result-processing pass awaits,
as an oracle over call arguments: `Except.error` is a thrown/rejected call. -/
structure Db where
  createCategory : String → String → Nat → Except String String
  createSubcategory : String → String → String → Except String String
  saveProducts : String → String → List ProductData → Except String Unit
  updateSubcategoryCompletion : String → Bool → Except String Unit
  updateCategoryCompletion : String → Bool → Option String → Except String Unit

/-- A database oracle on which no awaited call throws.  The spec treats the
persistence backend as an external collaborator; the event-sequence claims
are settled under this hypothesis. -/
structure DbOk (db : Db) : Prop where
  cc : ∀ u n i, ∃ v, db.createCategory u n i = Except.ok v
  cs : ∀ c n u, ∃ v, db.createSubcategory c n u = Except.ok v
  sp : ∀ c s ps, db.saveProducts c s ps = Except.ok ()
  usc : ∀ s b, db.updateSubcategoryCompletion s b = Except.ok ()
  ucc : ∀ c b e, db.updateCategoryCompletion c b e = Except.ok ()

/-- `categoryIds.get(url)` on the assoc-list model of the `Map`. -/
def lookupId (catIds : List (String × String)) (url : String) : Option String :=
  match catIds.find? (fun p => p.1 == url) with
  | some p => some p.2
  | none => none

/-- The body of the per-subcategory persistence `try`/`catch` of
`src/index.ts` (lines 150-174): create the subcategory, save its products
and mark it complete; on success add the product count and emit
`subcategory_finished(success)`, on any thrown error emit
`subcategory_finished` with id `"ERROR"`, an empty product list,
`success=false` and the message. -/
def persistOneSubcategory (db : Db) (url : String) (urlIndex : Nat)
    (categoryId : String) (sub : SubcatResult) : List Event × Nat :=
  match db.createSubcategory categoryId sub.name sub.url with
  | Except.error e =>
    ([Event.subcategoryFinished url urlIndex categoryId "ERROR" sub.name [] false (some e)], 0)
  | Except.ok subcategoryId =>
    match db.saveProducts categoryId subcategoryId sub.products with
    | Except.error e =>
      ([Event.subcategoryFinished url urlIndex categoryId "ERROR" sub.name [] false (some e)], 0)
    | Except.ok _ =>
      match db.updateSubcategoryCompletion subcategoryId true with
      | Except.error e =>
        ([Event.subcategoryFinished url urlIndex categoryId "ERROR" sub.name [] false (some e)], 0)
      | Except.ok _ =>
        ([Event.subcategoryFinished url urlIndex categoryId subcategoryId sub.name
            sub.products true none], sub.products.length)

/-- The per-subcategory persistence loop of `src/index.ts` (lines 149-175):
emit `subcategory_started`, run the `try`/`catch` body, and continue with
the next subcategory whatever happened.  Returns the emitted events and the
accumulated `categoryTotalProducts`. -/
def persistSubcategories (db : Db) (url : String) (urlIndex : Nat)
    (categoryId : String) : List SubcatResult → List Event × Nat
  | [] => ([], 0)
  | sub :: rest =>
    let startedEv := Event.subcategoryStarted url urlIndex categoryId sub.name sub.url
    let step := persistOneSubcategory db url urlIndex categoryId sub
    let restOut := persistSubcategories db url urlIndex categoryId rest
    (startedEv :: step.1 ++ restOut.1, step.2 + restOut.2)

/-- `src/index.ts` lines 134-194: a fulfilled, successful worker whose
`categoryInfo` has at least one subcategory.  Emits `category_started`,
creates the category (remembering its id in `categoryIds`), persists each
subcategory, marks the category complete, accumulates the products and emits
`category_finished`; an error thrown outside the per-subcategory `try` is
caught and `category_finished(success=false)` is emitted only when
`categoryIds` already holds an id for this url.  Returns the events, the
amount added to `totalProducts`, and the updated `categoryIds`. -/
def processSuccessWithSubs (db : Db) (url : String) (urlIndex : Nat)
    (ci : CategoryInfo) (catIds : List (String × String)) :
    List Event × Nat × List (String × String) :=
  let categoryName := extractCategoryNameFromUrl url
  let started := Event.categoryStarted url urlIndex categoryName
  match db.createCategory url categoryName urlIndex with
  | Except.error e =>
    match lookupId catIds url with
    | some categoryId =>
      ([started, Event.categoryFinished url urlIndex categoryId 0 0 false (some e)], 0, catIds)
    | none => ([started], 0, catIds)
  | Except.ok categoryId =>
    let catIds' := (url, categoryId) :: catIds
    let subOut := persistSubcategories db url urlIndex categoryId ci.subcategories
    match db.updateCategoryCompletion categoryId true none with
    | Except.error e =>
      (started :: subOut.1 ++
        [Event.categoryFinished url urlIndex categoryId 0 0 false (some e)], 0, catIds')
    | Except.ok _ =>
      (started :: subOut.1 ++
        [Event.categoryFinished url urlIndex categoryId subOut.2
          ci.subcategories.length true none], subOut.2, catIds')

/-- `src/index.ts` lines 195-214: a fulfilled, successful worker with no
subcategories.  Emits `category_started`, creates and completes the category
and emits `category_finished(0, 0, success=true)`; a thrown error is caught
and nothing further is emitted. -/
def processEmptyCategory (db : Db) (url : String) (urlIndex : Nat) :
    List Event × Nat :=
  let categoryName := extractCategoryNameFromUrl url
  let started := Event.categoryStarted url urlIndex categoryName
  match db.createCategory url categoryName urlIndex with
  | Except.error _ => ([started], 0)
  | Except.ok categoryId =>
    match db.updateCategoryCompletion categoryId true none with
    | Except.error _ => ([started], 0)
    | Except.ok _ =>
      ([started, Event.categoryFinished url urlIndex categoryId 0 0 true none], 0)

/-- `src/index.ts` lines 215-239: a rejected task or a worker that reported
`success=false`.  Emits `category_started`, creates the category and marks
it failed, then emits `category_finished(0, 0, success=false)` with the
error message; a thrown database error is caught and nothing further is
emitted. -/
def processFailed (db : Db) (url : String) (urlIndex : Nat)
    (errorMessage : Option String) : List Event × Nat :=
  let categoryName := extractCategoryNameFromUrl url
  let started := Event.categoryStarted url urlIndex categoryName
  match db.createCategory url categoryName urlIndex with
  | Except.error _ => ([started], 0)
  | Except.ok categoryId =>
    match db.updateCategoryCompletion categoryId false errorMessage with
    | Except.error _ => ([started], 0)
    | Except.ok _ =>
      ([started, Event.categoryFinished url urlIndex categoryId 0 0 false errorMessage], 0)

/-- One iteration of the result-processing loop of `src/index.ts`
(lines 126-240) for `results[i]` with `url = URLS[i]`.  The successful
branches use the worker-reported `urlIndex`; the failure branch uses the
loop position `i`. -/
def processOne (db : Db) (url : String) (i : Nat) (outcome : Outcome)
    (catIds : List (String × String)) : List Event × Nat × List (String × String) :=
  match outcome with
  | Outcome.fulfilled r =>
    if r.success then
      match r.categoryInfo with
      | some ci =>
        if 0 < ci.subcategories.length then
          processSuccessWithSubs db url r.urlIndex ci catIds
        else
          let out := processEmptyCategory db url r.urlIndex
          (out.1, out.2, catIds)
      | none =>
        let out := processEmptyCategory db url r.urlIndex
        (out.1, out.2, catIds)
    else
      let out := processFailed db url i r.error
      (out.1, out.2, catIds)
  | Outcome.rejected reason =>
    let out := processFailed db url i (some reason)
    (out.1, out.2, catIds)

/-- The result-processing loop over all `(URLS[i], results[i])` pairs,
threading the loop index, the `categoryIds` map and the `totalProducts`
accumulator. -/
def processLoop (db : Db) : List (String × Outcome) → Nat →
    List (String × String) → List Event × Nat
  | [], _, _ => ([], 0)
  | (url, outcome) :: rest, i, catIds =>
    let out := processOne db url i outcome catIds
    let restOut := processLoop db rest (i + 1) out.2.2
    (out.1 ++ restOut.1, out.2.1 + restOut.2)

/-- Did this settled outcome count as a successful worker
(`r.status === 'fulfilled' && r.value.success`)? -/
def outcomeSuccess : Outcome → Bool
  | Outcome.fulfilled r => r.success
  | Outcome.rejected _ => false

/-- The result-processing pass of `main` in `src/index.ts` (lines 124-249):
process every settled result in input order, then emit the single
`all_finished` event with the total url count, the number of successful
workers and the accumulated product total. -/
def processResults (db : Db) (pairs : List (String × Outcome)) : List Event :=
  let out := processLoop db pairs 0 []
  out.1 ++ [Event.allFinished pairs.length
    (pairs.filter fun p => outcomeSuccess p.2).length out.2]

/-! ### Concrete fixtures used by witnesses and counterexamples -/

/-- A well-formed tile whose secondary span fragment carries the currency
marker `kr`. -/
def krTile : Tile :=
  Tile.mk ["Eple", "Gartner", "29 kr"] ["10,00 kr/kg"]
    (Except.ok (some "/p/1")) (Except.ok (some "/i.png"))

/-- A well-formed tile whose secondary span fragment has no currency
marker (a discount label). -/
def discountTile : Tile :=
  Tile.mk ["Banan", "Fyffes", "15 kr"] ["-20%"]
    (Except.ok (some "/p/2")) (Except.ok (some "/i2.png"))

/-- A tile with a present, truthy title but an empty span list: building its
record throws (`undefined.includes`), the error is caught and the tile is
skipped. -/
def titledNoSpanTile : Tile :=
  Tile.mk ["Eple"] [] (Except.ok (some "/p/1")) (Except.ok (some "/i.png"))

/-! ### Extractor theorems -/

/-- What the per-tile extractor pins down about any record it produces: the
record's secondary fields are classified from the head span fragment, and
brand and description both copy the second paragraph. -/
theorem extractProductFromTile_spec (t : Tile) (pd : ProductData)
    (h : extractProductFromTile t = some pd) :
    ∃ frag, t.spans.head? = some frag ∧
      pd.pricePerKilo = (if containsSubstr frag "kr" then some frag else none) ∧
      pd.discount = (if containsSubstr frag "kr" then none else some frag) ∧
      pd.brand = t.paragraphs.get? 1 ∧
      pd.description = t.paragraphs.get? 1 := by
  unfold extractProductFromTile at h
  split at h
  case h_2 => simp at h
  case h_1 productLink image hlink himg =>
    split at h
    case h_2 => simp at h
    case h_1 title hp =>
      split at h
      case isTrue => simp at h
      case isFalse htitle =>
        split at h
        case h_2 => simp at h
        case h_1 frag hfrag =>
          cases h
          exact ⟨frag, hfrag, by simp⟩

/-- C3: every record returned by `extractProductData` has at most one of
`pricePerKilo` and `discount` populated: the single secondary span fragment
is classified as `pricePerKilo` exactly when it contains `"kr"`, and as
`discount` otherwise, so the two fields are never both non-null. -/
theorem extract_price_discount_exclusive (tiles : List Tile) (pd : ProductData)
    (h : pd ∈ extractProductData tiles) :
    pd.pricePerKilo = none ∨ pd.discount = none := by
  obtain ⟨t, -, ht⟩ := List.mem_filterMap.mp h
  obtain ⟨frag, -, hp, hd, -, -⟩ := extractProductFromTile_spec t pd ht
  cases hkr : containsSubstr frag "kr"
  · left; rw [hp, hkr]; rfl
  · right; rw [hd, hkr]; rfl

/-- Witness for C3 at a concrete tile batch. -/
theorem extract_price_discount_exclusive_witness :
    (ProductData.mk "Eple" (some "29 kr") (some "Gartner")
      (some "https://oda.com/p/1") (some "/i.png") (some "Gartner")
      (some "10,00 kr/kg") none none).pricePerKilo = none ∨
    (ProductData.mk "Eple" (some "29 kr") (some "Gartner")
      (some "https://oda.com/p/1") (some "/i.png") (some "Gartner")
      (some "10,00 kr/kg") none none).discount = none :=
  extract_price_discount_exclusive [krTile] _ (by decide)

/-- C5 counterexample: a tile whose title is present (the first paragraph is
a non-empty string) can still produce no record — with an empty span list
the record construction throws and the tile is skipped — so
`extractProductData` does not produce a record for every tile whose title is
present. -/
theorem extract_titled_tile_skipped :
    titledNoSpanTile.paragraphs.head? = some "Eple" ∧
    ("Eple" : String) ≠ "" ∧
    extractProductData [titledNoSpanTile] = [] := by
  exact ⟨rfl, by decide, rfl⟩

/-- C5 (amended): one tile whose per-tile extraction produces nothing —
absent title, or a caught per-tile error such as an empty span list or a
failed attribute read — never changes what the sibling tiles in the same
batch produce, and per-tile errors are never propagated. -/
theorem extract_fail_soft (ts1 ts2 : List Tile) (bad : Tile)
    (h : extractProductFromTile bad = none) :
    extractProductData (ts1 ++ bad :: ts2) =
      extractProductData ts1 ++ extractProductData ts2 := by
  simp [extractProductData, List.filterMap_append, List.filterMap_cons, h]

/-- Witness for the amended C5: the malformed titled tile sits between two
good tiles and the good records are unaffected. -/
theorem extract_fail_soft_witness :
    extractProductData ([krTile] ++ titledNoSpanTile :: [discountTile]) =
      extractProductData [krTile] ++ extractProductData [discountTile] :=
  extract_fail_soft [krTile] [discountTile] titledNoSpanTile rfl

/-- C10: in every record produced by `extractProductData`, `brand` and
`description` coincide — both are assigned from the tile's second paragraph
text. -/
theorem extract_brand_eq_description (tiles : List Tile) (pd : ProductData)
    (h : pd ∈ extractProductData tiles) :
    pd.brand = pd.description := by
  obtain ⟨t, -, ht⟩ := List.mem_filterMap.mp h
  obtain ⟨frag, -, -, -, hb, hd⟩ := extractProductFromTile_spec t pd ht
  rw [hb, hd]

/-- Witness for C10 at a concrete tile batch. -/
theorem extract_brand_eq_description_witness :
    (ProductData.mk "Banan" (some "15 kr") (some "Fyffes")
      (some "https://oda.com/p/2") (some "/i2.png") (some "Fyffes")
      none (some "-20%") none).brand =
    (ProductData.mk "Banan" (some "15 kr") (some "Fyffes")
      (some "https://oda.com/p/2") (some "/i2.png") (some "Fyffes")
      none (some "-20%") none).description :=
  extract_brand_eq_description [discountTile] _ (by decide)

/-! ### Paginator theorems -/

/-- The pagination loop performs at most `fuel` extraction cycles, whatever
the navigator does. -/
theorem scrapeLoop_length_le {σ : Type} (nav : NavigatorModel σ) :
    ∀ (fuel : Nat) (s : σ), (scrapeLoop nav fuel s).length ≤ fuel := by
  intro fuel
  induction fuel with
  | zero => intro s; simp [scrapeLoop]
  | succ n ih =>
    intro s
    simp only [scrapeLoop]
    split
    · simpa using ih _
    · simp

/-- C2: for every navigator model and every `maxPages` bound,
`scrapeAllProductsFromPage` terminates (it is a total function of the model)
with the concatenation of at most `maxPages` per-page extraction batches —
in particular even for a navigator whose load-more control is reported
visible on every cycle (`loadMore` constantly `true`). -/
theorem scrape_bounded_by_maxPages {σ : Type} (nav : NavigatorModel σ)
    (url : String) (maxPages : Nat) :
    ∃ pages : List (List ProductData),
      scrapeAllProductsFromPage nav url maxPages = pages.flatten ∧
      pages.length ≤ maxPages :=
  ⟨scrapeAllPages nav url maxPages, rfl, scrapeLoop_length_le nav maxPages _⟩

/-! ### Link-filter theorems -/

/-- C4 counterexample: the source's matching is case-sensitive, not
case-insensitive — a link whose text contains the exclusion text only up to
letter case is kept by `filterExcludedLinks`, while the spec's
case-insensitive reading (`filterExcludedLinksSpec`) removes it. -/
theorem filterExcluded_case_sensitive :
    filterExcludedLinks [SubcategoryLink.mk "alle produkter" "/all"] ["Alle"] =
      [SubcategoryLink.mk "alle produkter" "/all"] ∧
    filterExcludedLinksSpec [SubcategoryLink.mk "alle produkter" "/all"] ["Alle"] = [] := by
  exact ⟨rfl, rfl⟩

/-- C4 (amended): `filterExcludedLinks` returns exactly the links whose text
contains none of the exclusion texts under **case-sensitive** substring
matching; on the spec's example — links Fruit, Vegetables, All products,
Berries with exclusion text "All" — only "All products" is removed. -/
theorem filterExcluded_characterization :
    (∀ (links : List SubcategoryLink) (excludedTexts : List String)
        (l : SubcategoryLink),
      l ∈ filterExcludedLinks links excludedTexts ↔
        l ∈ links ∧ ∀ t ∈ excludedTexts, containsSubstr l.text t = false) ∧
    filterExcludedLinks
      [SubcategoryLink.mk "Fruit" "/f", SubcategoryLink.mk "Vegetables" "/v",
       SubcategoryLink.mk "All products" "/a", SubcategoryLink.mk "Berries" "/b"]
      ["All"] =
      [SubcategoryLink.mk "Fruit" "/f", SubcategoryLink.mk "Vegetables" "/v",
       SubcategoryLink.mk "Berries" "/b"] := by
  constructor
  · intro links excl l
    simp [filterExcludedLinks, List.mem_filter]
  · rfl

/-! ### Worker theorems -/

/-- Position-wise description of the worker's subcategory loop: every link
yields exactly one entry, at its own position. -/
theorem processSubcategories_get?
    (scrape : SubcategoryLink → Except String (List ProductData)) :
    ∀ (links : List SubcategoryLink) (i : Nat),
      (processSubcategories scrape links).get? i =
        (links.get? i).map fun link =>
          match scrape link with
          | Except.ok products =>
            SubcatResult.mk (cleanSubcategoryName link.text) link.href products
          | Except.error _ =>
            SubcatResult.mk (cleanSubcategoryName link.text) link.href []
  | [], i => by simp [processSubcategories]
  | link :: rest, 0 => by simp [processSubcategories]
  | link :: rest, i + 1 => by
    simpa [processSubcategories] using processSubcategories_get? scrape rest i

/-- C6: within a worker, a subcategory whose paginated scrape throws is
still recorded — with an empty product list — at its own position, the loop
is not aborted, and every other subcategory is processed in order: the
result has one entry per link, and the entry at any position `i` is
determined by the scrape outcome of the `i`-th link alone. -/
theorem worker_subcategory_fail_soft
    (scrape : SubcategoryLink → Except String (List ProductData))
    (links : List SubcategoryLink) (i : Nat) (hi : i < links.length) :
    (processSubcategories scrape links).length = links.length ∧
    (processSubcategories scrape links).get? i =
      some (match scrape (links.get ⟨i, hi⟩) with
        | Except.ok products =>
          SubcatResult.mk (cleanSubcategoryName (links.get ⟨i, hi⟩).text)
            (links.get ⟨i, hi⟩).href products
        | Except.error _ =>
          SubcatResult.mk (cleanSubcategoryName (links.get ⟨i, hi⟩).text)
            (links.get ⟨i, hi⟩).href []) := by
  have hlen : ∀ ls : List SubcategoryLink,
      (processSubcategories scrape ls).length = ls.length := by
    intro ls
    induction ls with
    | nil => simp [processSubcategories]
    | cons l rest ih => simp [processSubcategories, ih]
  refine ⟨hlen links, ?_⟩
  rw [processSubcategories_get? scrape links i, List.get?_eq_get hi]
  rfl

/-- A concrete scrape oracle that throws on the second subcategory. -/
def demoScrape : SubcategoryLink → Except String (List ProductData) :=
  fun link =>
    if link.href = "/boom" then Except.error "pagination failed"
    else Except.ok (extractProductData [krTile])

/-- The concrete links fed to the witness of C6. -/
def demoLinks : List SubcategoryLink :=
  [SubcategoryLink.mk "Frukt 140" "/frukt",
   SubcategoryLink.mk "Bakeri 25" "/boom",
   SubcategoryLink.mk "Middag 7" "/middag"]

/-- Witness for C6: the throwing middle subcategory is recorded with an
empty product list at its own position. -/
theorem worker_subcategory_fail_soft_witness :
    (processSubcategories demoScrape demoLinks).length = demoLinks.length ∧
    (processSubcategories demoScrape demoLinks).get? 1 =
      some (match demoScrape (demoLinks.get ⟨1, by decide⟩) with
        | Except.ok products =>
          SubcatResult.mk (cleanSubcategoryName (demoLinks.get ⟨1, by decide⟩).text)
            (demoLinks.get ⟨1, by decide⟩).href products
        | Except.error _ =>
          SubcatResult.mk (cleanSubcategoryName (demoLinks.get ⟨1, by decide⟩).text)
            (demoLinks.get ⟨1, by decide⟩).href []) :=
  worker_subcategory_fail_soft demoScrape demoLinks 1 (by decide)

/-- C7: on every exit path of `scrapeUrl` — success, partial failure inside
the subcategory loop, or an error thrown at launch, navigation or link
extraction — `BrowserManager.close` is invoked before the function returns,
no browser is held afterwards, a browser that was actually launched is
released, and the worker harness converts a rejection into a
`success=false` result carrying the error's message instead of propagating
the exception. -/
theorem worker_releases_browser (env : WorkerEnv) (url : String) (urlIndex : Nat) :
    BrowserEvent.closeInvoked ∈ (runScrapeUrl env url).trace ∧
    (runScrapeUrl env url).heldAtEnd = false ∧
    (BrowserEvent.launched ∈ (runScrapeUrl env url).trace →
      BrowserEvent.released ∈ (runScrapeUrl env url).trace) ∧
    runWorker env url urlIndex =
      (match (runScrapeUrl env url).result with
       | Except.ok categoryInfo =>
         WorkerResult.mk true url urlIndex (some categoryInfo) none
       | Except.error e => WorkerResult.mk false url urlIndex none (some e)) := by
  obtain ⟨lr, gr, xr, sc⟩ := env
  cases lr <;> cases gr <;> cases xr <;>
    simp [runScrapeUrl, runWorker, browserClose]

/-- A concrete worker environment whose subcategory scrapes all throw. -/
def demoEnv : WorkerEnv :=
  WorkerEnv.mk (Except.ok ()) (Except.ok ()) (Except.ok demoLinks)
    (fun _ => Except.error "boom")

/-- Witness for C7 at a concrete environment. -/
theorem worker_releases_browser_witness :
    BrowserEvent.closeInvoked ∈ (runScrapeUrl demoEnv "https://oda.com/no/categories/20-frukt-og-gront/").trace ∧
    (runScrapeUrl demoEnv "https://oda.com/no/categories/20-frukt-og-gront/").heldAtEnd = false ∧
    (BrowserEvent.launched ∈ (runScrapeUrl demoEnv "https://oda.com/no/categories/20-frukt-og-gront/").trace →
      BrowserEvent.released ∈ (runScrapeUrl demoEnv "https://oda.com/no/categories/20-frukt-og-gront/").trace) ∧
    runWorker demoEnv "https://oda.com/no/categories/20-frukt-og-gront/" 0 =
      (match (runScrapeUrl demoEnv "https://oda.com/no/categories/20-frukt-og-gront/").result with
       | Except.ok categoryInfo =>
         WorkerResult.mk true "https://oda.com/no/categories/20-frukt-og-gront/" 0 (some categoryInfo) none
       | Except.error e =>
         WorkerResult.mk false "https://oda.com/no/categories/20-frukt-og-gront/" 0 none (some e)) :=
  worker_releases_browser demoEnv "https://oda.com/no/categories/20-frukt-og-gront/" 0

/-- A one-page navigator model over a unit page state: a single tile batch
and a never-visible load-more control. -/
def demoNav : NavigatorModel Unit :=
  NavigatorModel.mk (fun _ => ()) (fun _ => [krTile, discountTile])
    (fun _ => (false, ()))

/-- C9: the `cleanSubcategoryName` the worker labels subcategories with does
reproduce its own doc-comment example (`"Grønsaker 140"` → `"Grønsaker"`),
but the implementation removes every digit anywhere in the name — not only a
trailing count suffix — so a name with interior digits is altered beyond the
suffix strip; the spec-modelled `core/scraper.ts` labelling itself attaches
the cleaned name to every record. -/
theorem cleanSubcategoryName_removes_all_digits :
    cleanSubcategoryName "Grønsaker 140" = "Grønsaker" ∧
    cleanSubcategoryName "Pizza 2 go 140" = "Pizza  go" ∧
    ("Pizza  go" : String) ≠ "Pizza 2 go" ∧
    (coreScrapeAllProductsFromPage demoNav "/frukt" 5
        (cleanSubcategoryName "Grønsaker 140")).map ProductData.category =
      [some "Grønsaker", some "Grønsaker"] := by
  exact ⟨rfl, rfl, by decide, rfl⟩

/-! ### Orchestrator theorems -/

/-- Project a category-level lifecycle event to its url, tagged `false` for
`category_started` and `true` for `category_finished`. -/
def categoryEventTag : Event → Option (String × Bool)
  | Event.categoryStarted url _ _ => some (url, false)
  | Event.categoryFinished url _ _ _ _ _ _ => some (url, true)
  | _ => none

/-- Is this the `all_finished` event? -/
def isAllFin : Event → Bool
  | Event.allFinished _ _ _ => true
  | _ => false

/-- The product count a settled worker outcome reports: the summed
subcategory product counts of a successful worker's category info, zero for
a failed or rejected worker. -/
def outcomeProducts : Outcome → Nat
  | Outcome.fulfilled r =>
    if r.success then
      match r.categoryInfo with
      | some ci => (ci.subcategories.map fun s => s.products.length).sum
      | none => 0
    else 0
  | Outcome.rejected _ => 0

/-- Whatever the database does, the `try`/`catch` body of the subcategory
loop emits exactly one `subcategory_finished` event. -/
theorem persistOneSubcategory_shape (db : Db) (url : String) (urlIndex : Nat)
    (categoryId : String) (sub : SubcatResult) :
    ∃ sid ps b er, (persistOneSubcategory db url urlIndex categoryId sub).1 =
      [Event.subcategoryFinished url urlIndex categoryId sid sub.name ps b er] := by
  unfold persistOneSubcategory
  cases h1 : db.createSubcategory categoryId sub.name sub.url with
  | error e => exact ⟨"ERROR", [], false, some e, by simp [h1]⟩
  | ok sid =>
    cases h2 : db.saveProducts categoryId sid sub.products with
    | error e => exact ⟨"ERROR", [], false, some e, by simp [h1, h2]⟩
    | ok u =>
      cases h3 : db.updateSubcategoryCompletion sid true with
      | error e => exact ⟨"ERROR", [], false, some e, by simp [h1, h2, h3]⟩
      | ok u2 => exact ⟨sid, sub.products, true, none, by simp [h1, h2, h3]⟩

/-- When no database call throws, each subcategory contributes its full
product count to `categoryTotalProducts`. -/
theorem persistOneSubcategory_total {db : Db} (hdb : DbOk db) (url : String)
    (urlIndex : Nat) (categoryId : String) (sub : SubcatResult) :
    (persistOneSubcategory db url urlIndex categoryId sub).2 = sub.products.length := by
  obtain ⟨sid, h1⟩ := hdb.cs categoryId sub.name sub.url
  simp [persistOneSubcategory, h1, hdb.sp, hdb.usc]

/-- The subcategory persistence loop emits no category-level events. -/
theorem persistSubcategories_category_tag (db : Db) (url : String)
    (urlIndex : Nat) (categoryId : String) :
    ∀ subs : List SubcatResult,
      ((persistSubcategories db url urlIndex categoryId subs).1).filterMap
        categoryEventTag = []
  | [] => by simp [persistSubcategories]
  | sub :: rest => by
    obtain ⟨sid, ps, b, er, hshape⟩ :=
      persistOneSubcategory_shape db url urlIndex categoryId sub
    simp [persistSubcategories, hshape, categoryEventTag,
      persistSubcategories_category_tag db url urlIndex categoryId rest]

/-- The subcategory persistence loop emits no `all_finished` event. -/
theorem persistSubcategories_no_allFin (db : Db) (url : String)
    (urlIndex : Nat) (categoryId : String) :
    ∀ subs : List SubcatResult,
      ((persistSubcategories db url urlIndex categoryId subs).1).filter isAllFin = []
  | [] => by simp [persistSubcategories]
  | sub :: rest => by
    obtain ⟨sid, ps, b, er, hshape⟩ :=
      persistOneSubcategory_shape db url urlIndex categoryId sub
    simp [persistSubcategories, hshape, isAllFin,
      persistSubcategories_no_allFin db url urlIndex categoryId rest]

/-- When no database call throws, `categoryTotalProducts` is the sum of the
subcategories' product counts. -/
theorem persistSubcategories_total {db : Db} (hdb : DbOk db) (url : String)
    (urlIndex : Nat) (categoryId : String) :
    ∀ subs : List SubcatResult,
      (persistSubcategories db url urlIndex categoryId subs).2 =
        (subs.map fun s => s.products.length).sum
  | [] => by simp [persistSubcategories]
  | sub :: rest => by
    simp [persistSubcategories, persistOneSubcategory_total hdb,
      persistSubcategories_total hdb url urlIndex categoryId rest]

/-- When no database call throws, the branch for a successful worker with
subcategories emits started/finished around only subcategory-level events
and adds the full product sum. -/
theorem processSuccessWithSubs_dbOk {db : Db} (hdb : DbOk db) (url : String)
    (urlIndex : Nat) (ci : CategoryInfo) (catIds : List (String × String)) :
    ((processSuccessWithSubs db url urlIndex ci catIds).1).filterMap
      categoryEventTag = [(url, false), (url, true)] ∧
    ((processSuccessWithSubs db url urlIndex ci catIds).1).filter isAllFin = [] ∧
    (processSuccessWithSubs db url urlIndex ci catIds).2.1 =
      (ci.subcategories.map fun s => s.products.length).sum := by
  obtain ⟨cid, h1⟩ := hdb.cc url (extractCategoryNameFromUrl url) urlIndex
  refine ⟨?_, ?_, ?_⟩ <;>
    simp [processSuccessWithSubs, h1, hdb.ucc, categoryEventTag, isAllFin,
      persistSubcategories_category_tag, persistSubcategories_no_allFin,
      persistSubcategories_total hdb]

/-- When no database call throws, the empty-category branch emits exactly
the started/finished pair and adds nothing. -/
theorem processEmptyCategory_dbOk {db : Db} (hdb : DbOk db) (url : String)
    (urlIndex : Nat) :
    ((processEmptyCategory db url urlIndex).1).filterMap categoryEventTag =
      [(url, false), (url, true)] ∧
    ((processEmptyCategory db url urlIndex).1).filter isAllFin = [] ∧
    (processEmptyCategory db url urlIndex).2 = 0 := by
  obtain ⟨cid, h1⟩ := hdb.cc url (extractCategoryNameFromUrl url) urlIndex
  refine ⟨?_, ?_, ?_⟩ <;>
    simp [processEmptyCategory, h1, hdb.ucc, categoryEventTag, isAllFin]

/-- When no database call throws, the failed-worker branch emits exactly
the started/finished pair and adds nothing. -/
theorem processFailed_dbOk {db : Db} (hdb : DbOk db) (url : String)
    (urlIndex : Nat) (errorMessage : Option String) :
    ((processFailed db url urlIndex errorMessage).1).filterMap categoryEventTag =
      [(url, false), (url, true)] ∧
    ((processFailed db url urlIndex errorMessage).1).filter isAllFin = [] ∧
    (processFailed db url urlIndex errorMessage).2 = 0 := by
  obtain ⟨cid, h1⟩ := hdb.cc url (extractCategoryNameFromUrl url) urlIndex
  refine ⟨?_, ?_, ?_⟩ <;>
    simp [processFailed, h1, hdb.ucc, categoryEventTag, isAllFin]

/-- When no database call throws, every loop iteration — whatever the worker
outcome — emits exactly one started/finished pair for its url, no
`all_finished`, and adds exactly the outcome's product count. -/
theorem processOne_dbOk {db : Db} (hdb : DbOk db) (url : String) (i : Nat)
    (outcome : Outcome) (catIds : List (String × String)) :
    ((processOne db url i outcome catIds).1).filterMap categoryEventTag =
      [(url, false), (url, true)] ∧
    ((processOne db url i outcome catIds).1).filter isAllFin = [] ∧
    (processOne db url i outcome catIds).2.1 = outcomeProducts outcome := by
  cases outcome with
  | rejected reason =>
    obtain ⟨e1, e2, e3⟩ := processFailed_dbOk hdb url i (some reason)
    exact ⟨by simpa [processOne] using e1, by simpa [processOne] using e2,
      by simpa [processOne, outcomeProducts] using e3⟩
  | fulfilled r =>
    cases hs : r.success with
    | false =>
      obtain ⟨e1, e2, e3⟩ := processFailed_dbOk hdb url i r.error
      exact ⟨by simpa [processOne, hs] using e1, by simpa [processOne, hs] using e2,
        by simpa [processOne, hs, outcomeProducts] using e3⟩
    | true =>
      cases hci : r.categoryInfo with
      | none =>
        obtain ⟨e1, e2, e3⟩ := processEmptyCategory_dbOk hdb url r.urlIndex
        exact ⟨by simpa [processOne, hs, hci] using e1,
          by simpa [processOne, hs, hci] using e2,
          by simpa [processOne, hs, hci, outcomeProducts] using e3⟩
      | some ci =>
        by_cases hlen : 0 < ci.subcategories.length
        · obtain ⟨e1, e2, e3⟩ := processSuccessWithSubs_dbOk hdb url r.urlIndex ci catIds
          exact ⟨by simpa [processOne, hs, hci, hlen] using e1,
            by simpa [processOne, hs, hci, hlen] using e2,
            by simpa [processOne, hs, hci, hlen, outcomeProducts] using e3⟩
        · have hnil : ci.subcategories = [] :=
            List.length_eq_zero.mp (by omega)
          obtain ⟨e1, e2, e3⟩ := processEmptyCategory_dbOk hdb url r.urlIndex
          exact ⟨by simpa [processOne, hs, hci, hlen] using e1,
            by simpa [processOne, hs, hci, hlen] using e2,
            by simpa [processOne, hs, hci, hlen, outcomeProducts, hnil] using e3⟩

/-- When no database call throws, the whole result-processing loop emits
one started/finished pair per input pair in input order, no `all_finished`,
and accumulates the grand product total. -/
theorem processLoop_spec {db : Db} (hdb : DbOk db) :
    ∀ (pairs : List (String × Outcome)) (i : Nat)
      (catIds : List (String × String)),
      ((processLoop db pairs i catIds).1).filterMap categoryEventTag =
        (pairs.flatMap fun p => [(p.1, false), (p.1, true)]) ∧
      ((processLoop db pairs i catIds).1).filter isAllFin = [] ∧
      (processLoop db pairs i catIds).2 =
        (pairs.map fun p => outcomeProducts p.2).sum
  | [], i, catIds => by simp [processLoop]
  | (url, outcome) :: rest, i, catIds => by
    obtain ⟨e1, e2, e3⟩ := processOne_dbOk hdb url i outcome catIds
    obtain ⟨f1, f2, f3⟩ :=
      processLoop_spec hdb rest (i + 1) (processOne db url i outcome catIds).2.2
    simp [processLoop, e1, e2, e3, f1, f2, f3]

/-- C1: for every input url list and every list of settled worker outcomes
(success, failure, or zero subcategories — hence regardless of worker
completion order, which the settled list abstracts away), the
result-processing pass emits exactly one `category_started` and exactly one
`category_finished` event per url, consecutively paired per url, in the
input list's relative order, provided no awaited persistence call throws. -/
theorem orchestrator_category_event_pairs (db : Db) (hdb : DbOk db)
    (pairs : List (String × Outcome)) :
    (processResults db pairs).filterMap categoryEventTag =
      (pairs.flatMap fun p => [(p.1, false), (p.1, true)]) := by
  obtain ⟨e1, e2, e3⟩ := processLoop_spec hdb pairs 0 []
  simp [processResults, e1, categoryEventTag]

/-- C8: after all workers settle, with no awaited persistence call throwing,
the pass emits exactly one `all_finished` event; it carries
`totalUrls` equal to the number of input urls, `successfulUrls` equal to the
number of outcomes that were fulfilled with `success=true` (rejected tasks
excluded), and `totalProducts` equal to the grand total product count over
all urls. -/
theorem orchestrator_all_finished (db : Db) (hdb : DbOk db)
    (pairs : List (String × Outcome)) :
    (processResults db pairs).filter isAllFin =
      [Event.allFinished pairs.length
        (pairs.filter fun p => outcomeSuccess p.2).length
        ((pairs.map fun p => outcomeProducts p.2).sum)] := by
  obtain ⟨e1, e2, e3⟩ := processLoop_spec hdb pairs 0 []
  simp [processResults, e2, e3, isAllFin]

/-- The database oracle on which every call succeeds, used by witnesses. -/
def dbAlwaysOk : Db :=
  Db.mk (fun _ _ _ => Except.ok "cat1") (fun _ _ _ => Except.ok "sub1")
    (fun _ _ _ => Except.ok ()) (fun _ _ => Except.ok ())
    (fun _ _ _ => Except.ok ())

/-- `dbAlwaysOk` satisfies `DbOk`. -/
theorem dbAlwaysOk_ok : DbOk dbAlwaysOk :=
  ⟨fun _ _ _ => ⟨"cat1", rfl⟩, fun _ _ _ => ⟨"sub1", rfl⟩,
   fun _ _ _ => rfl, fun _ _ => rfl, fun _ _ _ => rfl⟩

/-- Concrete settled outcomes: a successful worker with two subcategories
(one of them empty), a worker that reported failure, and a task that
rejected outright. -/
def demoPairs : List (String × Outcome) :=
  [("https://oda.com/no/categories/20-frukt-og-gront/",
    Outcome.fulfilled (WorkerResult.mk true
      "https://oda.com/no/categories/20-frukt-og-gront/" 0
      (some (CategoryInfo.mk "Frukt Og Gront"
        [SubcatResult.mk "Frukt" "/frukt" (extractProductData [krTile, discountTile]),
         SubcatResult.mk "Tom" "/tom" []])) none)),
   ("https://oda.com/no/categories/60-drikke/",
    Outcome.fulfilled (WorkerResult.mk false
      "https://oda.com/no/categories/60-drikke/" 1 none (some "browser crashed"))),
   ("https://oda.com/no/categories/42-palegg/",
    Outcome.rejected "Worker stopped with exit code 1")]

/-- Witness for C1 at the concrete outcomes. -/
theorem orchestrator_category_event_pairs_witness :
    (processResults dbAlwaysOk demoPairs).filterMap categoryEventTag =
      (demoPairs.flatMap fun p => [(p.1, false), (p.1, true)]) :=
  orchestrator_category_event_pairs dbAlwaysOk dbAlwaysOk_ok demoPairs

/-- Witness for C8 at the concrete outcomes. -/
theorem orchestrator_all_finished_witness :
    (processResults dbAlwaysOk demoPairs).filter isAllFin =
      [Event.allFinished demoPairs.length
        (demoPairs.filter fun p => outcomeSuccess p.2).length
        ((demoPairs.map fun p => outcomeProducts p.2).sum)] :=
  orchestrator_all_finished dbAlwaysOk dbAlwaysOk_ok demoPairs

end Oda
